import Mathlib

/-!
Verification of the financial-calculation engine of the
`tools-simulasikelayakan` repository (`src/utils/financial-calculations.ts`,
data model in `src/types/financial.ts`).

Numbers are modelled as rationals (`ℚ`); all arithmetic in the source is
exact on the inputs considered here, and every tolerance claim is settled
by an exact computation.  JavaScript loops are translated to structural or
fuel-based recursion; the `try/catch` fallbacks in the source cannot fire
in this pure model and are noted where they occur.  JavaScript's
`Array.prototype.sort` (stable since ES2019) is modelled by the stable
`List.mergeSort`.
-/

namespace SimulasiKelayakan

/-- `CapexItem` / `OpexItem` from `src/types/financial.ts`: both interfaces
have exactly the fields `id`, `name`, `volume`, `unit`, `price`. -/
structure LineItem where
  id : String
  name : String
  volume : ℚ
  unit : String
  price : ℚ
deriving DecidableEq

abbrev CapexItem := LineItem

abbrev OpexItem := LineItem

/-- `ProjectData` from `src/types/financial.ts`. -/
structure ProjectData where
  capexItems : List CapexItem
  opexCashIn : List OpexItem
  opexCashOut : List OpexItem
  projectYears : ℕ
  discountRate : ℚ
  opexInGrowth : ℚ
  opexOutGrowth : ℚ
deriving DecidableEq

/-- `FinancialMetrics` from `src/types/financial.ts`. -/
structure FinancialMetrics where
  npv : ℚ
  irr : ℚ
  paybackPeriod : ℚ
  totalCapex : ℚ
  yearlyRevenue : ℚ
  yearlyExpenses : ℚ
deriving DecidableEq

/-- `SensitivityResult` from `src/types/financial.ts`. -/
structure SensitivityResult where
  «variable» : String
  npvLow : ℚ
  npvHigh : ℚ
  range : ℚ
deriving DecidableEq

/-- `calculateTotal`: `item.volume * item.price`. -/
def calculateTotal (item : LineItem) : ℚ :=
  item.volume * item.price

/-- `calculateCapexTotal`: `reduce((sum, item) => sum + calculateTotal(item), 0)`. -/
def calculateCapexTotal (capexItems : List CapexItem) : ℚ :=
  capexItems.foldl (fun sum item => sum + calculateTotal item) 0

/-- `calculateYearlyOpexCashIn`: same reduce over the cash-in items. -/
def calculateYearlyOpexCashIn (opexCashIn : List OpexItem) : ℚ :=
  opexCashIn.foldl (fun sum item => sum + calculateTotal item) 0

/-- `calculateYearlyOpexCashOut`: same reduce over the cash-out items. -/
def calculateYearlyOpexCashOut (opexCashOut : List OpexItem) : ℚ :=
  opexCashOut.foldl (fun sum item => sum + calculateTotal item) 0

/-- `calculateNetCashFlow`: year 0 holds `-capex`; the loop
`for (year = 1; year <= projectYears; year++)` pushes
`baseCashIn*(1+growthIn)^year - baseCashOut*(1+growthOut)^year`.
The `try/catch` fallback to `[0]` cannot fire in this pure model. -/
def calculateNetCashFlow (data : ProjectData) : List ℚ :=
  let capex := calculateCapexTotal data.capexItems
  let baseCashIn := calculateYearlyOpexCashIn data.opexCashIn
  let baseCashOut := calculateYearlyOpexCashOut data.opexCashOut
  let growthIn := data.opexInGrowth / 100
  let growthOut := data.opexOutGrowth / 100
  (-capex) :: (List.range data.projectYears).map (fun k =>
    let year := k + 1
    let cashInYear := baseCashIn * (1 + growthIn) ^ year
    let cashOutYear := baseCashOut * (1 + growthOut) ^ year
    cashInYear - cashOutYear)

/-- `calculateDiscountFactors`: `[1.0]` then `(1+rate)^i` for `i = 1..projectYears`.
The `try/catch` fallback to `[1.0]` cannot fire in this pure model. -/
def calculateDiscountFactors (projectYears : ℕ) (discountRate : ℚ) : List ℚ :=
  let rate := discountRate / 100
  1 :: (List.range projectYears).map (fun k => (1 + rate) ^ (k + 1))

/-- `calculateDiscountedCashFlow`: `cashflows.map((cf, i) => df !== 0 ? cf / df : 0)`
with `df = discountFactors[i]`; an out-of-range factor access is modelled as 0. -/
def calculateDiscountedCashFlow (cashflows discountFactors : List ℚ) : List ℚ :=
  cashflows.mapIdx (fun i cf =>
    let df := discountFactors.getD i 0
    if df ≠ 0 then cf / df else 0)

/-- Loop body of `calculateCumulativeCashFlow`: running total pushed per element. -/
def cumulativeAux (total : ℚ) : List ℚ → List ℚ
  | [] => []
  | dcf :: rest => (total + dcf) :: cumulativeAux (total + dcf) rest

/-- `calculateCumulativeCashFlow`: running sums of the discounted series. -/
def calculateCumulativeCashFlow (discountedCashflows : List ℚ) : List ℚ :=
  cumulativeAux 0 discountedCashflows

/-- `calculateNPV`: `reduce((sum, dcf) => sum + dcf, 0)`. -/
def calculateNPV (discountedCashflows : List ℚ) : ℚ :=
  discountedCashflows.foldl (fun sum dcf => sum + dcf) 0

/-- Convergence tolerance `1e-6` used by `calculateIRR`. -/
def irrTolerance : ℚ := 1 / 1000000

/-- Inner loop of `calculateIRR` computing `npv += cashflows[j] / (1+guess)^j`. -/
def irrNpvAt (cashflows : List ℚ) (guess : ℚ) : ℚ :=
  (cashflows.mapIdx (fun j cf => cf / (1 + guess) ^ j)).foldl (fun s x => s + x) 0

/-- Inner loop of `calculateIRR` computing `dNpv -= j * cashflows[j] / (1+guess)^(j+1)`. -/
def irrDerivAt (cashflows : List ℚ) (guess : ℚ) : ℚ :=
  (cashflows.mapIdx (fun j cf => (j : ℚ) * cf / (1 + guess) ^ (j + 1))).foldl
    (fun s x => s - x) 0

/-- The `for (i = 0; i < maxIterations; i++)` Newton-Raphson loop of
`calculateIRR`, with the remaining iteration budget as fuel: break when
`|npv| < 1e-6`; when `|dNpv| < 1e-6` flip the guess to `-0.9`/`0.9` and
continue; otherwise take the Newton step and clamp into `[-0.99, 10]`. -/
def irrIter (cashflows : List ℚ) : ℕ → ℚ → ℚ
  | 0, guess => guess
  | fuel + 1, guess =>
    let npv := irrNpvAt cashflows guess
    if |npv| < irrTolerance then guess
    else
      let dNpv := irrDerivAt cashflows guess
      if |dNpv| < irrTolerance then
        irrIter cashflows fuel (if guess > 0 then -(9/10) else 9/10)
      else
        let next0 := guess - npv / dNpv
        let next1 := if next0 < -(99/100) then -(99/100) else next0
        let next2 := if next1 > 10 then 10 else next1
        irrIter cashflows fuel next2

/-- `calculateIRR`: fewer than 2 cash flows returns 0; otherwise run up to
100 Newton-Raphson iterations from the initial guess `0.1`. -/
def calculateIRR (cashflows : List ℚ) : ℚ :=
  if cashflows.length < 2 then 0
  else irrIter cashflows 100 (1 / 10)

/-- The scan loop of `calculatePaybackPeriod`, starting at index `i`. -/
def paybackAux (cumulativeCashflows : List ℚ) (i : ℕ) : ℚ :=
  if h : i < cumulativeCashflows.length then
    if 0 ≤ cumulativeCashflows.getD i 0 then
      if i = 0 then 0
      else
        let prevCumulative := cumulativeCashflows.getD (i - 1) 0
        let currCumulative := cumulativeCashflows.getD i 0
        if currCumulative - prevCumulative ≠ 0 then
          ((i : ℚ) - 1) + |prevCumulative| / (currCumulative - prevCumulative)
        else paybackAux cumulativeCashflows (i + 1)
    else paybackAux cumulativeCashflows (i + 1)
  else (cumulativeCashflows.length : ℚ) - 1
termination_by cumulativeCashflows.length - i

/-- `calculatePaybackPeriod`: scan from index 0; first non-negative entry is
interpolated (continuing on a zero delta); `length - 1` if never non-negative. -/
def calculatePaybackPeriod (cumulativeCashflows : List ℚ) : ℚ :=
  paybackAux cumulativeCashflows 0

/-- `calculateFinancialMetrics`: the full pipeline producing the metrics record. -/
def calculateFinancialMetrics (data : ProjectData) : FinancialMetrics :=
  let cashflows := calculateNetCashFlow data
  let discountFactors := calculateDiscountFactors data.projectYears data.discountRate
  let discountedCashflows := calculateDiscountedCashFlow cashflows discountFactors
  let cumulativeCashflows := calculateCumulativeCashFlow discountedCashflows
  { npv := calculateNPV discountedCashflows
    irr := calculateIRR cashflows
    paybackPeriod := calculatePaybackPeriod cumulativeCashflows
    totalCapex := calculateCapexTotal data.capexItems
    yearlyRevenue := calculateYearlyOpexCashIn data.opexCashIn
    yearlyExpenses := calculateYearlyOpexCashOut data.opexCashOut }

/-- The per-scenario item perturbation used by `performSensitivityAnalysis`:
`items.map(item => ({ ...item, price: item.price * c }))`. -/
def scaleItemPrices (items : List LineItem) (c : ℚ) : List LineItem :=
  items.map (fun item => { item with price := item.price * c })

/-- Block 1 of `performSensitivityAnalysis` (Revenue): scale every
`opexCashIn` price by `1 ± variationDecimal`; direct mapping of the NPVs. -/
def revenueSensitivity (data : ProjectData) (variationDecimal : ℚ) : SensitivityResult :=
  let highRevenueData :=
    { data with opexCashIn := scaleItemPrices data.opexCashIn (1 + variationDecimal) }
  let lowRevenueData :=
    { data with opexCashIn := scaleItemPrices data.opexCashIn (1 - variationDecimal) }
  let npvRevenueHigh := (calculateFinancialMetrics highRevenueData).npv
  let npvRevenueLow := (calculateFinancialMetrics lowRevenueData).npv
  { «variable» := "Revenue", npvLow := npvRevenueLow, npvHigh := npvRevenueHigh,
    range := npvRevenueHigh - npvRevenueLow }

/-- Block 2 of `performSensitivityAnalysis` (Operating Costs): scale every
`opexCashOut` price; the source swaps the fields (higher cost = lower NPV). -/
def operatingCostsSensitivity (data : ProjectData) (variationDecimal : ℚ) : SensitivityResult :=
  let highCostData :=
    { data with opexCashOut := scaleItemPrices data.opexCashOut (1 + variationDecimal) }
  let lowCostData :=
    { data with opexCashOut := scaleItemPrices data.opexCashOut (1 - variationDecimal) }
  let npvCostHigh := (calculateFinancialMetrics highCostData).npv
  let npvCostLow := (calculateFinancialMetrics lowCostData).npv
  { «variable» := "Operating Costs", npvLow := npvCostHigh, npvHigh := npvCostLow,
    range := npvCostLow - npvCostHigh }

/-- Block 3 of `performSensitivityAnalysis` (Initial Investment): scale every
`capexItems` price; fields swapped as in the source. -/
def initialInvestmentSensitivity (data : ProjectData) (variationDecimal : ℚ) : SensitivityResult :=
  let highCapexData :=
    { data with capexItems := scaleItemPrices data.capexItems (1 + variationDecimal) }
  let lowCapexData :=
    { data with capexItems := scaleItemPrices data.capexItems (1 - variationDecimal) }
  let npvCapexHigh := (calculateFinancialMetrics highCapexData).npv
  let npvCapexLow := (calculateFinancialMetrics lowCapexData).npv
  { «variable» := "Initial Investment", npvLow := npvCapexHigh, npvHigh := npvCapexLow,
    range := npvCapexLow - npvCapexHigh }

/-- Block 4 of `performSensitivityAnalysis` (Discount Rate): scale the rate by
`1 + v` and `max(0.1, rate * (1 - v))`; fields swapped as in the source. -/
def discountRateSensitivity (data : ProjectData) (variationDecimal : ℚ) : SensitivityResult :=
  let highRateData := { data with discountRate := data.discountRate * (1 + variationDecimal) }
  let lowRateData :=
    { data with discountRate := max (1/10) (data.discountRate * (1 - variationDecimal)) }
  let npvRateHigh := (calculateFinancialMetrics highRateData).npv
  let npvRateLow := (calculateFinancialMetrics lowRateData).npv
  { «variable» := "Discount Rate", npvLow := npvRateHigh, npvHigh := npvRateLow,
    range := npvRateLow - npvRateHigh }

/-- The `results` array of `performSensitivityAnalysis` in push order, before
sorting.  (The source also computes a baseline NPV here; it is dead code,
used by none of the four records.) -/
def sensitivityResultsUnsorted (data : ProjectData) (variation : ℚ) : List SensitivityResult :=
  let variationDecimal := variation / 100
  [revenueSensitivity data variationDecimal,
   operatingCostsSensitivity data variationDecimal,
   initialInvestmentSensitivity data variationDecimal,
   discountRateSensitivity data variationDecimal]

/-- The comparator `(a, b) => b.range - a.range` of the final
`results.sort`: `a` may precede `b` exactly when `b.range ≤ a.range`. -/
def sensitivitySortLE (a b : SensitivityResult) : Bool :=
  decide (b.range ≤ a.range)

/-- `performSensitivityAnalysis`: the four records sorted descending by
`range`; JavaScript `sort` is stable, modelled by `List.mergeSort`.
(The source defaults `variation` to 20; the default is irrelevant here.) -/
def performSensitivityAnalysis (data : ProjectData) (variation : ℚ) : List SensitivityResult :=
  (sensitivityResultsUnsorted data variation).mergeSort sensitivitySortLE

/-! ### Auxiliary lemmas about the embedded definitions -/

theorem foldl_add_eq (l : List ℚ) : ∀ a : ℚ, l.foldl (fun s x => s + x) a = a + l.sum := by
  induction l with
  | nil => intro a; simp
  | cons x xs ih => intro a; simp [List.foldl_cons, ih, add_assoc]

theorem foldl_totals_eq (l : List LineItem) :
    ∀ a : ℚ, l.foldl (fun s item => s + calculateTotal item) a = a + (l.map calculateTotal).sum := by
  induction l with
  | nil => intro a; simp
  | cons x xs ih => intro a; simp [List.foldl_cons, ih, add_assoc]

theorem calculateNPV_eq_sum (l : List ℚ) : calculateNPV l = l.sum := by
  simp [calculateNPV, foldl_add_eq]

theorem calculateCapexTotal_eq (l : List CapexItem) :
    calculateCapexTotal l = (l.map calculateTotal).sum := by
  simp [calculateCapexTotal, foldl_totals_eq]

theorem calculateYearlyOpexCashIn_eq (l : List OpexItem) :
    calculateYearlyOpexCashIn l = (l.map calculateTotal).sum := by
  simp [calculateYearlyOpexCashIn, foldl_totals_eq]

theorem calculateYearlyOpexCashOut_eq (l : List OpexItem) :
    calculateYearlyOpexCashOut l = (l.map calculateTotal).sum := by
  simp [calculateYearlyOpexCashOut, foldl_totals_eq]

theorem totals_nonneg (l : List LineItem) (h : ∀ it ∈ l, 0 ≤ it.volume ∧ 0 ≤ it.price) :
    0 ≤ (l.map calculateTotal).sum := by
  apply List.sum_nonneg
  intro x hx
  obtain ⟨it, hit, rfl⟩ := List.mem_map.mp hx
  exact mul_nonneg (h it hit).1 (h it hit).2

theorem scale_totals (l : List LineItem) (c : ℚ) :
    ((scaleItemPrices l c).map calculateTotal).sum = c * (l.map calculateTotal).sum := by
  induction l with
  | nil => simp [scaleItemPrices]
  | cons x xs ih =>
    simp only [scaleItemPrices, List.map_cons, List.sum_cons, calculateTotal] at ih ⊢
    rw [ih]; ring

theorem getD_map_range (f : ℕ → ℚ) {n j : ℕ} (h : j < n) :
    ((List.range n).map f).getD j 0 = f j := by
  simp [List.getD_eq_getElem?_getD, List.getElem?_map, List.getElem?_range h]

/-- The cash-flow entry of year `i` as a function of the year index. -/
def cfTerm (d : ProjectData) (i : ℕ) : ℚ :=
  if i = 0 then -(calculateCapexTotal d.capexItems)
  else calculateYearlyOpexCashIn d.opexCashIn * (1 + d.opexInGrowth / 100) ^ i
       - calculateYearlyOpexCashOut d.opexCashOut * (1 + d.opexOutGrowth / 100) ^ i

/-- The discounted cash-flow entry of year `i` as a function of the year index. -/
def npvTerm (d : ProjectData) (i : ℕ) : ℚ :=
  let df := (1 + d.discountRate / 100) ^ i
  if df ≠ 0 then cfTerm d i / df else 0

theorem netCashFlow_eq_map (d : ProjectData) :
    calculateNetCashFlow d = (List.range (d.projectYears + 1)).map (cfTerm d) := by
  rw [List.range_succ_eq_map, List.map_cons, List.map_map]
  simp only [calculateNetCashFlow]
  congr 1

theorem discountFactors_eq_map (n : ℕ) (r : ℚ) :
    calculateDiscountFactors n r = (List.range (n + 1)).map (fun i => (1 + r / 100) ^ i) := by
  rw [List.range_succ_eq_map, List.map_cons, List.map_map]
  simp only [calculateDiscountFactors]
  congr 1

theorem discountFactors_getD (n : ℕ) (r : ℚ) {i : ℕ} (h : i ≤ n) :
    (calculateDiscountFactors n r).getD i 0 = (1 + r / 100) ^ i := by
  rw [discountFactors_eq_map]
  exact getD_map_range _ (by omega)

theorem mapIdx_map_range (G : ℕ → ℚ → ℚ) (F : ℕ → ℚ) (m : ℕ) :
    List.mapIdx G ((List.range m).map F) = (List.range m).map (fun i => G i (F i)) := by
  rw [List.mapIdx_eq_iff]
  intro i
  by_cases h : i < m
  · simp [List.getElem?_map, List.getElem?_range h]
  · rw [List.getElem?_eq_none (by simpa using Nat.le_of_not_lt h),
      List.getElem?_eq_none (by simpa using Nat.le_of_not_lt h)]
    rfl

theorem metrics_npv_eq (d : ProjectData) :
    (calculateFinancialMetrics d).npv
      = ((List.range (d.projectYears + 1)).map (npvTerm d)).sum := by
  show calculateNPV (calculateDiscountedCashFlow (calculateNetCashFlow d)
      (calculateDiscountFactors d.projectYears d.discountRate)) = _
  rw [calculateNPV_eq_sum, netCashFlow_eq_map, calculateDiscountedCashFlow, mapIdx_map_range]
  congr 1
  apply List.map_congr_left
  intro i hi
  have hin : i ≤ d.projectYears := by
    have := List.mem_range.mp hi; omega
  simp only [npvTerm, discountFactors_getD d.projectYears d.discountRate hin]

theorem sum_map_le (l : List ℕ) (f g : ℕ → ℚ) (h : ∀ i ∈ l, f i ≤ g i) :
    (l.map f).sum ≤ (l.map g).sum := by
  induction l with
  | nil => simp
  | cons x xs ih =>
    simp only [List.map_cons, List.sum_cons]
    exact add_le_add (h x (by simp)) (ih (fun i hi => h i (by simp [hi])))

/-! ### Payback-period scan lemmas -/

theorem paybackAux_out (c : List ℚ) (i : ℕ) (h : c.length ≤ i) :
    paybackAux c i = (c.length : ℚ) - 1 := by
  rw [paybackAux]
  simp [Nat.not_lt.mpr h]

theorem paybackAux_step (c : List ℚ) (i : ℕ) (hneg : c.getD i 0 < 0) :
    paybackAux c i = paybackAux c (i + 1) := by
  have hi : i < c.length := by
    by_contra hcon
    rw [List.getD_eq_getElem?_getD, List.getElem?_eq_none (Nat.le_of_not_lt hcon)] at hneg
    simp at hneg
  rw [paybackAux, dif_pos hi, if_neg (not_le.mpr hneg)]

theorem paybackAux_scan (c : List ℚ) (j : ℕ) :
    ∀ i : ℕ, i ≤ j → (∀ k, i ≤ k → k < j → c.getD k 0 < 0) →
      paybackAux c i = paybackAux c j := by
  induction j with
  | zero =>
    intro i hij _
    have : i = 0 := by omega
    rw [this]
  | succ j ih =>
    intro i hij hneg
    rcases Nat.lt_or_ge i (j + 1) with hlt | hge
    · have hij' : i ≤ j := by omega
      rw [ih i hij' (fun k hk1 hk2 => hneg k hk1 (by omega))]
      exact paybackAux_step c j (hneg j hij' (by omega))
    · have : i = j + 1 := by omega
      rw [this]

theorem payback_hit (c : List ℚ) (i : ℕ) (hi : i < c.length)
    (hfirst : ∀ j, j < i → c.getD j 0 < 0) (hpos : 0 ≤ c.getD i 0) :
    calculatePaybackPeriod c
      = if i = 0 then 0
        else if c.getD i 0 - c.getD (i - 1) 0 ≠ 0 then
          ((i : ℚ) - 1) + |c.getD (i - 1) 0| / (c.getD i 0 - c.getD (i - 1) 0)
        else paybackAux c (i + 1) := by
  rw [calculatePaybackPeriod,
    paybackAux_scan c i 0 (Nat.zero_le i) (fun k _ hk => hfirst k hk), paybackAux]
  simp only [hi, dif_pos, hpos, if_pos]

/-! ### IRR loop lemmas -/

theorem irrIter_converged (cfs : List ℚ) (g : ℚ) (h : |irrNpvAt cfs g| < irrTolerance) :
    ∀ fuel : ℕ, irrIter cfs fuel g = g := by
  intro fuel
  cases fuel with
  | zero => rfl
  | succ fuel => rw [irrIter]; simp [h]

theorem irrIter_bounds (cfs : List ℚ) :
    ∀ (fuel : ℕ) (g : ℚ), -(99/100) ≤ g → g ≤ 10 →
      -(99/100) ≤ irrIter cfs fuel g ∧ irrIter cfs fuel g ≤ 10 := by
  intro fuel
  induction fuel with
  | zero => intro g h1 h2; exact ⟨h1, h2⟩
  | succ fuel ih =>
    intro g h1 h2
    rw [irrIter]
    by_cases hnpv : |irrNpvAt cfs g| < irrTolerance
    · simp only [hnpv, if_pos]; exact ⟨h1, h2⟩
    · simp only [hnpv, if_neg, not_false_iff]
      by_cases hd : |irrDerivAt cfs g| < irrTolerance
      · simp only [hd, if_pos]
        by_cases hg : g > 0
        · simp only [hg, if_pos]
          exact ih _ (by norm_num) (by norm_num)
        · simp only [hg, if_neg, not_false_iff]
          exact ih _ (by norm_num) (by norm_num)
      · simp only [hd, if_neg, not_false_iff]
        apply ih
        · split_ifs <;> linarith
        · split_ifs <;> linarith

theorem payback_never (c : List ℚ) (hall : ∀ j, j < c.length → c.getD j 0 < 0) :
    calculatePaybackPeriod c = (c.length : ℚ) - 1 := by
  rw [calculatePaybackPeriod,
    paybackAux_scan c c.length 0 (Nat.zero_le _) (fun k _ hk => hall k hk),
    paybackAux_out c c.length (le_refl _)]

/-- Example project of the spec: capex totaling 1,000,000, cash-in totaling
500,000, cash-out totaling 200,000, zero growth, 3 years, 10% rate. -/
def exProject : ProjectData :=
  { capexItems := [{ id := "c1", name := "Build", volume := 1, unit := "unit", price := 1000000 }],
    opexCashIn := [{ id := "r1", name := "Sales", volume := 1, unit := "unit", price := 500000 }],
    opexCashOut := [{ id := "e1", name := "Cost", volume := 1, unit := "unit", price := 200000 }],
    projectYears := 3, discountRate := 10, opexInGrowth := 0, opexOutGrowth := 0 }

theorem netCashFlow_exProject :
    calculateNetCashFlow exProject = [-1000000, 300000, 300000, 300000] := by
  have hr : List.range 3 = [0, 1, 2] := rfl
  norm_num [calculateNetCashFlow, exProject, calculateCapexTotal, calculateYearlyOpexCashIn,
    calculateYearlyOpexCashOut, calculateTotal, hr]

/-! ### Claims -/

/-- C1: for every `ProjectData` with `projectYears ≥ 1`, `calculateNetCashFlow`
returns `projectYears + 1` entries; entry 0 is the negated sum of
`volume * price` over `capexItems`; entry `i` for `1 ≤ i ≤ projectYears` is
the grown cash-in total minus the grown cash-out total; and on the spec's
example project it returns `[-1000000, 300000, 300000, 300000]`. -/
theorem calculateNetCashFlow_spec (d : ProjectData) (hy : 1 ≤ d.projectYears) :
    (calculateNetCashFlow d).length = d.projectYears + 1 ∧
    (calculateNetCashFlow d).getD 0 0
      = -((d.capexItems.map (fun it => it.volume * it.price)).sum) ∧
    (∀ i, 1 ≤ i → i ≤ d.projectYears →
      (calculateNetCashFlow d).getD i 0
        = (d.opexCashIn.map (fun it => it.volume * it.price)).sum
            * (1 + d.opexInGrowth / 100) ^ i
          - (d.opexCashOut.map (fun it => it.volume * it.price)).sum
            * (1 + d.opexOutGrowth / 100) ^ i) ∧
    calculateNetCashFlow exProject = [-1000000, 300000, 300000, 300000] := by
  refine ⟨?_, ?_, ?_, netCashFlow_exProject⟩
  · simp [calculateNetCashFlow]
  · simp only [calculateNetCashFlow, List.getD_cons_zero]
    rw [calculateCapexTotal_eq]
    rfl
  · intro i h1 h2
    obtain ⟨k, rfl⟩ : ∃ k, i = k + 1 := ⟨i - 1, by omega⟩
    simp only [calculateNetCashFlow, List.getD_cons_succ]
    rw [getD_map_range _ (by omega : k < d.projectYears),
      calculateYearlyOpexCashIn_eq, calculateYearlyOpexCashOut_eq]
    rfl

/-- Witness for C1 at the example project. -/
theorem calculateNetCashFlow_spec_witness :
    (calculateNetCashFlow exProject).length = exProject.projectYears + 1 ∧
    calculateNetCashFlow exProject = [-1000000, 300000, 300000, 300000] := by
  have h := calculateNetCashFlow_spec exProject (by norm_num [exProject])
  exact ⟨h.1, h.2.2.2⟩

/-- C2: `calculatePaybackPeriod` returns 0 when the first non-negative
cumulative entry sits at index 0; at a first non-negative index `i ≥ 1` with
nonzero delta it returns `(i-1) + |cumulative[i-1]| / (cumulative[i] -
cumulative[i-1])`; it returns `length - 1` when the series never becomes
non-negative; and on `[-100, -40, 20, 80]` it returns `1 + 40/60` within
`1e-6`. -/
theorem calculatePaybackPeriod_spec (c : List ℚ) :
    (∀ i, i < c.length → (∀ j, j < i → c.getD j 0 < 0) → 0 ≤ c.getD i 0 →
      ((i = 0 → calculatePaybackPeriod c = 0) ∧
       (1 ≤ i → c.getD i 0 - c.getD (i - 1) 0 ≠ 0 →
         calculatePaybackPeriod c
           = ((i : ℚ) - 1) + |c.getD (i - 1) 0| / (c.getD i 0 - c.getD (i - 1) 0)))) ∧
    ((∀ j, j < c.length → c.getD j 0 < 0) → calculatePaybackPeriod c = (c.length : ℚ) - 1) ∧
    |calculatePaybackPeriod [-100, -40, 20, 80] - (1 + 40/60)| < 1/1000000 := by
  refine ⟨?_, payback_never c, ?_⟩
  · intro i hi hfirst hpos
    rw [payback_hit c i hi hfirst hpos]
    constructor
    · intro h0; simp [h0]
    · intro h1 hne
      have hne0 : i ≠ 0 := by omega
      rw [if_neg hne0, if_pos hne]
  · have h2 : calculatePaybackPeriod [-100, -40, 20, 80] = 1 + 40/60 := by
      rw [payback_hit [-100, -40, 20, 80] 2 (by norm_num)
        (by intro j hj; interval_cases j <;> norm_num) (by norm_num)]
      norm_num
    rw [h2]; norm_num

/-- Witness for C2 on the concrete cumulative series `[-100, -40, 20, 80]`. -/
theorem calculatePaybackPeriod_spec_witness :
    calculatePaybackPeriod [-100, -40, 20, 80] = 1 + 40/60 := by
  have h := (calculatePaybackPeriod_spec [-100, -40, 20, 80]).1 2 (by norm_num)
    (by intro j hj; interval_cases j <;> norm_num) (by norm_num)
  have h2 := h.2 (by norm_num) (by norm_num)
  rw [h2]; norm_num

/-- C5: `calculateIRR [-1000, 1100]` is within `1e-4` of `0.10`; the embedded
Newton-Raphson loop (guess 0.1, 100 iterations, tolerance `1e-6`) stops at
its first iteration because the NPV at 0.1 is exactly zero. -/
theorem calculateIRR_example : |calculateIRR [-1000, 1100] - 1/10| < 1/10000 := by
  have h0 : irrNpvAt [-1000, 1100] (1/10) = 0 := by
    norm_num [irrNpvAt, List.mapIdx_cons, List.mapIdx_nil]
  have h : calculateIRR [-1000, 1100] = 1/10 := by
    rw [calculateIRR, if_neg (by simp)]
    exact irrIter_converged _ _ (by rw [h0]; norm_num [irrTolerance]) 100
  rw [h]; norm_num

/-- C9: for every cash-flow series the value returned by `calculateIRR` lies
in the closed interval `[-0.99, 10]`: the initial guess, the flat-region
replacements and every clamped Newton update stay in the interval. -/
theorem calculateIRR_bounded (cfs : List ℚ) :
    -(99/100) ≤ calculateIRR cfs ∧ calculateIRR cfs ≤ 10 := by
  rw [calculateIRR]
  split_ifs with h
  · norm_num
  · exact irrIter_bounds cfs 100 (1/10) (by norm_num) (by norm_num)

/-- C10: on the empty cumulative series `calculatePaybackPeriod` returns
`-1` (its `length - 1` fallback), not an error. -/
theorem calculatePaybackPeriod_empty : calculatePaybackPeriod ([] : List ℚ) = -1 := by
  rw [calculatePaybackPeriod, paybackAux_out ([] : List ℚ) 0 (by simp)]
  norm_num

theorem getD_mapIdx_lt (f : ℕ → ℚ → ℚ) (l : List ℚ) {i : ℕ} (h : i < l.length) :
    (l.mapIdx f).getD i 0 = f i (l.getD i 0) := by
  simp [List.getD_eq_getElem?_getD, List.getElem?_mapIdx, List.getElem?_eq_getElem h]

/-- C6: discounting with `calculateDiscountFactors n r` and re-multiplying by
the same factors reconstructs the original cash flows entrywise, for every
`n ≥ 0`, `r ≥ 0` and series of length `n + 1` (exactly, in ℚ). -/
theorem discount_roundTrip (n : ℕ) (r : ℚ) (hr : 0 ≤ r) (cashflows : List ℚ)
    (hlen : cashflows.length = n + 1) :
    ∀ i, i < cashflows.length →
      (calculateDiscountedCashFlow cashflows (calculateDiscountFactors n r)).getD i 0
        * (calculateDiscountFactors n r).getD i 0 = cashflows.getD i 0 := by
  intro i hi
  have hin : i ≤ n := by omega
  have hdf : (calculateDiscountFactors n r).getD i 0 = (1 + r / 100) ^ i :=
    discountFactors_getD n r hin
  have hpos : (0:ℚ) < (1 + r / 100) ^ i := pow_pos (by linarith) i
  rw [calculateDiscountedCashFlow, getD_mapIdx_lt _ _ hi]
  simp only [hdf, ne_of_gt hpos, Ne, not_false_iff, if_true, ite_not, if_neg (ne_of_gt hpos).symm]
  exact div_mul_cancel₀ _ (ne_of_gt hpos)

/-- Witness for C6 at `n = 1`, `r = 10`, series `[-100, 110]`, index 1. -/
theorem discount_roundTrip_witness :
    (calculateDiscountedCashFlow [-100, 110] (calculateDiscountFactors 1 10)).getD 1 0
      * (calculateDiscountFactors 1 10).getD 1 0 = ([-100, 110] : List ℚ).getD 1 0 :=
  discount_roundTrip 1 10 (by norm_num) [-100, 110] (by simp) 1 (by simp)

/-- State-passing model of `performSensitivityAnalysis`: the source reads the
caller's `data` object, builds every perturbed scenario with object/array
spreads (`{...data, ...}`, `map(item => ({...item, ...}))`), pushes records
onto its own `results` array, and never assigns to `data` or its items; the
pair returned here carries the final state of the caller's object. -/
def performSensitivityAnalysisSt (data : ProjectData) (variation : ℚ) :
    List SensitivityResult × ProjectData :=
  let variationDecimal := variation / 100
  let results0 : List SensitivityResult := []
  let results1 := results0 ++ [revenueSensitivity data variationDecimal]
  let results2 := results1 ++ [operatingCostsSensitivity data variationDecimal]
  let results3 := results2 ++ [initialInvestmentSensitivity data variationDecimal]
  let results4 := results3 ++ [discountRateSensitivity data variationDecimal]
  (results4.mergeSort sensitivitySortLE, data)

/-- C7: `performSensitivityAnalysis` leaves its input unmodified — in the
state-passing model every field of the final state of `data` (including the
three item collections) equals its initial value, while the returned records
agree with the pure function; the perturbed scenarios are fresh copies. -/
theorem performSensitivityAnalysisSt_frame (data : ProjectData) (variation : ℚ) :
    (performSensitivityAnalysisSt data variation).2.capexItems = data.capexItems ∧
    (performSensitivityAnalysisSt data variation).2.opexCashIn = data.opexCashIn ∧
    (performSensitivityAnalysisSt data variation).2.opexCashOut = data.opexCashOut ∧
    (performSensitivityAnalysisSt data variation).2.projectYears = data.projectYears ∧
    (performSensitivityAnalysisSt data variation).2.discountRate = data.discountRate ∧
    (performSensitivityAnalysisSt data variation).2.opexInGrowth = data.opexInGrowth ∧
    (performSensitivityAnalysisSt data variation).2.opexOutGrowth = data.opexOutGrowth ∧
    (performSensitivityAnalysisSt data variation).1 = performSensitivityAnalysis data variation :=
  ⟨rfl, rfl, rfl, rfl, rfl, rfl, rfl, rfl⟩

/-- C8: `calculateFinancialMetrics` is deterministic — two calls on identical
inputs return identical values in every field of the metrics record. -/
theorem calculateFinancialMetrics_deterministic (d₁ d₂ : ProjectData) (h : d₁ = d₂) :
    (calculateFinancialMetrics d₁).npv = (calculateFinancialMetrics d₂).npv ∧
    (calculateFinancialMetrics d₁).irr = (calculateFinancialMetrics d₂).irr ∧
    (calculateFinancialMetrics d₁).paybackPeriod = (calculateFinancialMetrics d₂).paybackPeriod ∧
    (calculateFinancialMetrics d₁).totalCapex = (calculateFinancialMetrics d₂).totalCapex ∧
    (calculateFinancialMetrics d₁).yearlyRevenue = (calculateFinancialMetrics d₂).yearlyRevenue ∧
    (calculateFinancialMetrics d₁).yearlyExpenses = (calculateFinancialMetrics d₂).yearlyExpenses := by
  subst h
  exact ⟨rfl, rfl, rfl, rfl, rfl, rfl⟩

/-- Witness for C8 at the example project. -/
theorem calculateFinancialMetrics_deterministic_witness :
    (calculateFinancialMetrics exProject).npv = (calculateFinancialMetrics exProject).npv ∧
    (calculateFinancialMetrics exProject).irr = (calculateFinancialMetrics exProject).irr ∧
    (calculateFinancialMetrics exProject).paybackPeriod
      = (calculateFinancialMetrics exProject).paybackPeriod ∧
    (calculateFinancialMetrics exProject).totalCapex
      = (calculateFinancialMetrics exProject).totalCapex ∧
    (calculateFinancialMetrics exProject).yearlyRevenue
      = (calculateFinancialMetrics exProject).yearlyRevenue ∧
    (calculateFinancialMetrics exProject).yearlyExpenses
      = (calculateFinancialMetrics exProject).yearlyExpenses :=
  calculateFinancialMetrics_deterministic exProject exProject rfl

theorem sensitivitySortLE_trans :
    ∀ a b c : SensitivityResult, sensitivitySortLE a b → sensitivitySortLE b c →
      sensitivitySortLE a c := by
  intro a b c hab hbc
  simp only [sensitivitySortLE, decide_eq_true_eq] at *
  exact le_trans hbc hab

theorem sensitivitySortLE_total :
    ∀ a b : SensitivityResult, sensitivitySortLE a b || sensitivitySortLE b a := by
  intro a b
  simp only [sensitivitySortLE, Bool.or_eq_true, decide_eq_true_eq]
  exact le_total b.range a.range

/-- C4: `performSensitivityAnalysis` returns exactly four records, sorted in
descending order of `range`; records with equal `range` keep their relative
construction order Revenue, Operating Costs, Initial Investment, Discount
Rate — for every range value, filtering the output by that value yields
exactly the corresponding subsequence of the pre-sort construction list. -/
theorem performSensitivityAnalysis_sorted_stable (d : ProjectData) (v : ℚ) :
    (performSensitivityAnalysis d v).length = 4 ∧
    (performSensitivityAnalysis d v).Pairwise (fun a b => b.range ≤ a.range) ∧
    ∀ q : ℚ, (performSensitivityAnalysis d v).filter (fun r => decide (r.range = q))
      = (sensitivityResultsUnsorted d v).filter (fun r => decide (r.range = q)) := by
  refine ⟨?_, ?_, ?_⟩
  · rw [performSensitivityAnalysis, List.length_mergeSort]
    rfl
  · have hp := List.sorted_mergeSort sensitivitySortLE_trans sensitivitySortLE_total
      (sensitivityResultsUnsorted d v)
    exact hp.imp (fun h => by simpa [sensitivitySortLE] using h)
  · intro q
    have hq : ∀ x ∈ (sensitivityResultsUnsorted d v).filter (fun r => decide (r.range = q)),
        (fun r => decide (r.range = q)) x = true :=
      fun x hx => (List.mem_filter.mp hx).2
    have hsubl : List.Sublist
        ((sensitivityResultsUnsorted d v).filter (fun r => decide (r.range = q)))
        ((sensitivityResultsUnsorted d v).mergeSort sensitivitySortLE) := by
      apply List.sublist_mergeSort sensitivitySortLE_trans sensitivitySortLE_total
      · apply List.pairwise_of_forall_mem_list
        intro a ha b hb
        have ha' : a.range = q := of_decide_eq_true (hq a ha)
        have hb' : b.range = q := of_decide_eq_true (hq b hb)
        simp [sensitivitySortLE, ha', hb']
      · exact List.filter_sublist _
    have hsub2 : List.Sublist
        ((sensitivityResultsUnsorted d v).filter (fun r => decide (r.range = q)))
        (((sensitivityResultsUnsorted d v).mergeSort sensitivitySortLE).filter
            (fun r => decide (r.range = q))) := by
      have h2 := hsubl.filter (fun r => decide (r.range = q))
      rwa [List.filter_eq_self.mpr hq] at h2
    have hpermf : List.Perm
        (((sensitivityResultsUnsorted d v).mergeSort sensitivitySortLE).filter
          (fun r => decide (r.range = q)))
        ((sensitivityResultsUnsorted d v).filter (fun r => decide (r.range = q))) :=
      (List.mergeSort_perm (sensitivityResultsUnsorted d v) sensitivitySortLE).filter _
    rw [performSensitivityAnalysis]
    exact (hsub2.eq_of_length hpermf.length_eq.symm).symm

/-! ### Pointwise monotonicity of the discounted year terms -/

theorem npvTerm_opexIn_scale_le (d : ProjectData) (c₁ c₂ : ℚ) (hc : c₂ ≤ c₁)
    (hbase : 0 ≤ (d.opexCashIn.map calculateTotal).sum)
    (hg : -100 ≤ d.opexInGrowth) (hrate : 0 ≤ d.discountRate) (i : ℕ) :
    npvTerm { d with opexCashIn := scaleItemPrices d.opexCashIn c₂ } i
      ≤ npvTerm { d with opexCashIn := scaleItemPrices d.opexCashIn c₁ } i := by
  have hdf : (0:ℚ) < (1 + d.discountRate / 100) ^ i := pow_pos (by linarith) i
  cases i with
  | zero => simp [npvTerm, cfTerm]
  | succ k =>
    simp only [npvTerm, cfTerm, Nat.succ_ne_zero, if_false, ite_false]
    rw [if_pos (ne_of_gt hdf), if_pos (ne_of_gt hdf)]
    rw [div_le_div_iff_of_pos_right hdf]
    apply sub_le_sub_right
    rw [calculateYearlyOpexCashIn_eq, calculateYearlyOpexCashIn_eq, scale_totals, scale_totals]
    have hx : (0:ℚ) ≤ (1 + d.opexInGrowth / 100) ^ (k + 1) :=
      pow_nonneg (by linarith) _
    exact mul_le_mul_of_nonneg_right (mul_le_mul_of_nonneg_right hc hbase) hx

theorem npvTerm_opexOut_scale_le (d : ProjectData) (c₁ c₂ : ℚ) (hc : c₂ ≤ c₁)
    (hbase : 0 ≤ (d.opexCashOut.map calculateTotal).sum)
    (hg : -100 ≤ d.opexOutGrowth) (hrate : 0 ≤ d.discountRate) (i : ℕ) :
    npvTerm { d with opexCashOut := scaleItemPrices d.opexCashOut c₁ } i
      ≤ npvTerm { d with opexCashOut := scaleItemPrices d.opexCashOut c₂ } i := by
  have hdf : (0:ℚ) < (1 + d.discountRate / 100) ^ i := pow_pos (by linarith) i
  cases i with
  | zero => simp [npvTerm, cfTerm]
  | succ k =>
    simp only [npvTerm, cfTerm, Nat.succ_ne_zero, if_false, ite_false]
    rw [if_pos (ne_of_gt hdf), if_pos (ne_of_gt hdf)]
    rw [div_le_div_iff_of_pos_right hdf]
    apply sub_le_sub_left
    rw [calculateYearlyOpexCashOut_eq, calculateYearlyOpexCashOut_eq, scale_totals, scale_totals]
    have hx : (0:ℚ) ≤ (1 + d.opexOutGrowth / 100) ^ (k + 1) :=
      pow_nonneg (by linarith) _
    exact mul_le_mul_of_nonneg_right (mul_le_mul_of_nonneg_right hc hbase) hx

theorem npvTerm_capex_scale_le (d : ProjectData) (c₁ c₂ : ℚ) (hc : c₂ ≤ c₁)
    (hbase : 0 ≤ (d.capexItems.map calculateTotal).sum) (i : ℕ) :
    npvTerm { d with capexItems := scaleItemPrices d.capexItems c₁ } i
      ≤ npvTerm { d with capexItems := scaleItemPrices d.capexItems c₂ } i := by
  cases i with
  | zero =>
    simp only [npvTerm, cfTerm, pow_zero, ne_eq, one_ne_zero, not_false_iff, if_true,
      if_pos, div_one]
    rw [calculateCapexTotal_eq, calculateCapexTotal_eq, scale_totals, scale_totals]
    exact neg_le_neg (mul_le_mul_of_nonneg_right hc hbase)
  | succ k =>
    apply le_of_eq
    simp [npvTerm, cfTerm]

theorem npvTerm_rate_le (d : ProjectData) (r₁ r₂ : ℚ) (h12 : r₁ ≤ r₂) (h1 : 0 ≤ r₁) (i : ℕ)
    (hcf : 1 ≤ i →
      0 ≤ calculateYearlyOpexCashIn d.opexCashIn * (1 + d.opexInGrowth / 100) ^ i
          - calculateYearlyOpexCashOut d.opexCashOut * (1 + d.opexOutGrowth / 100) ^ i) :
    npvTerm { d with discountRate := r₂ } i ≤ npvTerm { d with discountRate := r₁ } i := by
  cases i with
  | zero => simp [npvTerm, cfTerm]
  | succ k =>
    have hdf1 : (0:ℚ) < (1 + r₁ / 100) ^ (k + 1) := pow_pos (by linarith) _
    have hdf2 : (0:ℚ) < (1 + r₂ / 100) ^ (k + 1) := pow_pos (by linarith) _
    have hle : (1 + r₁ / 100) ^ (k + 1) ≤ (1 + r₂ / 100) ^ (k + 1) :=
      pow_le_pow_left₀ (by linarith) (by linarith) _
    simp only [npvTerm, cfTerm, Nat.succ_ne_zero, if_false, ite_false]
    rw [if_pos (ne_of_gt hdf2), if_pos (ne_of_gt hdf1)]
    exact div_le_div_of_nonneg_left (hcf (by omega)) hdf1 hle

/-! ### Per-record inequalities (under nonnegativity assumptions) -/

theorem revenue_pair (d : ProjectData) (vd : ℚ) (hvd : 0 ≤ vd)
    (hbase : 0 ≤ (d.opexCashIn.map calculateTotal).sum)
    (hg : -100 ≤ d.opexInGrowth) (hrate : 0 ≤ d.discountRate) :
    (revenueSensitivity d vd).npvLow ≤ (revenueSensitivity d vd).npvHigh ∧
    0 ≤ (revenueSensitivity d vd).range := by
  have key :
      (calculateFinancialMetrics { d with opexCashIn := scaleItemPrices d.opexCashIn (1 - vd) }).npv
        ≤ (calculateFinancialMetrics
            { d with opexCashIn := scaleItemPrices d.opexCashIn (1 + vd) }).npv := by
    rw [metrics_npv_eq, metrics_npv_eq]
    apply sum_map_le
    intro i _
    exact npvTerm_opexIn_scale_le d (1 + vd) (1 - vd) (by linarith) hbase hg hrate i
  exact ⟨by simpa [revenueSensitivity] using key,
    by simp only [revenueSensitivity]; linarith [key]⟩

theorem operatingCosts_pair (d : ProjectData) (vd : ℚ) (hvd : 0 ≤ vd)
    (hbase : 0 ≤ (d.opexCashOut.map calculateTotal).sum)
    (hg : -100 ≤ d.opexOutGrowth) (hrate : 0 ≤ d.discountRate) :
    (operatingCostsSensitivity d vd).npvLow ≤ (operatingCostsSensitivity d vd).npvHigh ∧
    0 ≤ (operatingCostsSensitivity d vd).range := by
  have key :
      (calculateFinancialMetrics
          { d with opexCashOut := scaleItemPrices d.opexCashOut (1 + vd) }).npv
        ≤ (calculateFinancialMetrics
            { d with opexCashOut := scaleItemPrices d.opexCashOut (1 - vd) }).npv := by
    rw [metrics_npv_eq, metrics_npv_eq]
    apply sum_map_le
    intro i _
    exact npvTerm_opexOut_scale_le d (1 + vd) (1 - vd) (by linarith) hbase hg hrate i
  exact ⟨by simpa [operatingCostsSensitivity] using key,
    by simp only [operatingCostsSensitivity]; linarith [key]⟩

theorem initialInvestment_pair (d : ProjectData) (vd : ℚ) (hvd : 0 ≤ vd)
    (hbase : 0 ≤ (d.capexItems.map calculateTotal).sum) :
    (initialInvestmentSensitivity d vd).npvLow ≤ (initialInvestmentSensitivity d vd).npvHigh ∧
    0 ≤ (initialInvestmentSensitivity d vd).range := by
  have key :
      (calculateFinancialMetrics
          { d with capexItems := scaleItemPrices d.capexItems (1 + vd) }).npv
        ≤ (calculateFinancialMetrics
            { d with capexItems := scaleItemPrices d.capexItems (1 - vd) }).npv := by
    rw [metrics_npv_eq, metrics_npv_eq]
    apply sum_map_le
    intro i _
    exact npvTerm_capex_scale_le d (1 + vd) (1 - vd) (by linarith) hbase i
  exact ⟨by simpa [initialInvestmentSensitivity] using key,
    by simp only [initialInvestmentSensitivity]; linarith [key]⟩

theorem discountRate_pair (d : ProjectData) (vd : ℚ) (hvd : 0 ≤ vd)
    (hrate : 0 ≤ d.discountRate)
    (hfloor : 1/10 ≤ d.discountRate * (1 - vd))
    (hflows : ∀ i, 1 ≤ i → i ≤ d.projectYears →
      0 ≤ calculateYearlyOpexCashIn d.opexCashIn * (1 + d.opexInGrowth / 100) ^ i
          - calculateYearlyOpexCashOut d.opexCashOut * (1 + d.opexOutGrowth / 100) ^ i) :
    (discountRateSensitivity d vd).npvLow ≤ (discountRateSensitivity d vd).npvHigh ∧
    0 ≤ (discountRateSensitivity d vd).range := by
  have hmax : max (1/10) (d.discountRate * (1 - vd)) = d.discountRate * (1 - vd) :=
    max_eq_right hfloor
  have key :
      (calculateFinancialMetrics
          { d with discountRate := d.discountRate * (1 + vd) }).npv
        ≤ (calculateFinancialMetrics
            { d with discountRate := max (1/10) (d.discountRate * (1 - vd)) }).npv := by
    rw [hmax, metrics_npv_eq, metrics_npv_eq]
    apply sum_map_le
    intro i hi
    have hiN : i ≤ d.projectYears := by
      have h2 : i < d.projectYears + 1 := by simpa using List.mem_range.mp hi
      omega
    apply npvTerm_rate_le d (d.discountRate * (1 - vd)) (d.discountRate * (1 + vd))
      (mul_le_mul_of_nonneg_left (by linarith) hrate) (by linarith) i
    intro h1
    exact hflows i h1 hiN
  exact ⟨by simpa [discountRateSensitivity] using key,
    by simp only [discountRateSensitivity]; linarith [key]⟩

theorem netCashFlow_getD_pos (d : ProjectData) {i : ℕ} (h1 : 1 ≤ i) (h2 : i ≤ d.projectYears) :
    (calculateNetCashFlow d).getD i 0
      = calculateYearlyOpexCashIn d.opexCashIn * (1 + d.opexInGrowth / 100) ^ i
        - calculateYearlyOpexCashOut d.opexCashOut * (1 + d.opexOutGrowth / 100) ^ i := by
  obtain ⟨k, rfl⟩ : ∃ k, i = k + 1 := ⟨i - 1, by omega⟩
  simp only [calculateNetCashFlow, List.getD_cons_succ]
  rw [getD_map_range _ (by omega : k < d.projectYears)]

/-- C3 (amended): under the data-model invariants — nonnegative item volumes
and prices, growth rates ≥ −100, a nonnegative discount rate — and, for the
Discount Rate record, an inactive rate floor (`0.1 ≤ discountRate·(1−v/100)`)
and nonnegative year-1..N net cash flows, every record returned by
`performSensitivityAnalysis` satisfies `npvLow ≤ npvHigh` and `range ≥ 0`. -/
theorem sensitivity_npvLow_le_npvHigh_amended (d : ProjectData) (v : ℚ)
    (hv : 0 < v)
    (hcap : ∀ it ∈ d.capexItems, 0 ≤ it.volume ∧ 0 ≤ it.price)
    (hin : ∀ it ∈ d.opexCashIn, 0 ≤ it.volume ∧ 0 ≤ it.price)
    (hout : ∀ it ∈ d.opexCashOut, 0 ≤ it.volume ∧ 0 ≤ it.price)
    (hgIn : -100 ≤ d.opexInGrowth) (hgOut : -100 ≤ d.opexOutGrowth)
    (hrate : 0 ≤ d.discountRate)
    (hfloor : 1/10 ≤ d.discountRate * (1 - v / 100))
    (hflows : ∀ i, 1 ≤ i → i ≤ d.projectYears → 0 ≤ (calculateNetCashFlow d).getD i 0) :
    ∀ r ∈ performSensitivityAnalysis d v, r.npvLow ≤ r.npvHigh ∧ 0 ≤ r.range := by
  intro r hr
  rw [performSensitivityAnalysis, List.mem_mergeSort] at hr
  simp only [sensitivityResultsUnsorted, List.mem_cons, List.not_mem_nil, or_false] at hr
  have hvd : 0 ≤ v / 100 := by linarith
  rcases hr with rfl | rfl | rfl | rfl
  · exact revenue_pair d (v/100) hvd (totals_nonneg _ hin) hgIn hrate
  · exact operatingCosts_pair d (v/100) hvd (totals_nonneg _ hout) hgOut hrate
  · exact initialInvestment_pair d (v/100) hvd (totals_nonneg _ hcap)
  · apply discountRate_pair d (v/100) hvd hrate hfloor
    intro i h1 hN
    have h := hflows i h1 hN
    rwa [netCashFlow_getD_pos d h1 hN] at h

/-- Witness for the amended C3 at the example project with variation 20. -/
theorem sensitivity_npvLow_le_npvHigh_amended_witness :
    (revenueSensitivity exProject (20/100)).npvLow
      ≤ (revenueSensitivity exProject (20/100)).npvHigh ∧
    0 ≤ (revenueSensitivity exProject (20/100)).range := by
  apply sensitivity_npvLow_le_npvHigh_amended exProject 20 (by norm_num)
    (by intro it hit; simp [exProject] at hit; subst hit; norm_num)
    (by intro it hit; simp [exProject] at hit; subst hit; norm_num)
    (by intro it hit; simp [exProject] at hit; subst hit; norm_num)
    (by norm_num [exProject]) (by norm_num [exProject]) (by norm_num [exProject])
    (by norm_num [exProject])
    (by
      intro i h1 h3
      have h3' : i ≤ 3 := h3
      rw [netCashFlow_exProject]
      interval_cases i <;> norm_num)
  rw [performSensitivityAnalysis, List.mem_mergeSort]
  simp [sensitivityResultsUnsorted]

/-- Project falsifying C3 as universally stated: a single revenue item with a
negative price (accepted by the engine, which does not validate signs). -/
def cexProject : ProjectData :=
  { capexItems := [],
    opexCashIn := [{ id := "n1", name := "Neg", volume := 1, unit := "u", price := -100 }],
    opexCashOut := [],
    projectYears := 1, discountRate := 0, opexInGrowth := 0, opexOutGrowth := 0 }

theorem cex_revenue_npvHigh :
    (revenueSensitivity cexProject (20/100)).npvHigh = -120 := by
  simp only [revenueSensitivity]
  rw [metrics_npv_eq]
  have hr2 : List.range 2 = [0, 1] := rfl
  norm_num [cexProject, npvTerm, cfTerm, calculateCapexTotal, calculateYearlyOpexCashIn,
    calculateYearlyOpexCashOut, calculateTotal, scaleItemPrices, hr2]

theorem cex_revenue_npvLow :
    (revenueSensitivity cexProject (20/100)).npvLow = -80 := by
  simp only [revenueSensitivity]
  rw [metrics_npv_eq]
  have hr2 : List.range 2 = [0, 1] := rfl
  norm_num [cexProject, npvTerm, cfTerm, calculateCapexTotal, calculateYearlyOpexCashIn,
    calculateYearlyOpexCashOut, calculateTotal, scaleItemPrices, hr2]

/-- Cost-only project falsifying C3 for the Discount Rate record even with
nonnegative volumes and prices: with negative yearly net cash flows a higher
rate increases the NPV, inverting the record's field convention. -/
def cexProject2 : ProjectData :=
  { capexItems := [],
    opexCashIn := [],
    opexCashOut := [{ id := "o1", name := "Cost", volume := 1, unit := "u", price := 100 }],
    projectYears := 1, discountRate := 10, opexInGrowth := 0, opexOutGrowth := 0 }

theorem cex2_rate_npvHigh :
    (discountRateSensitivity cexProject2 (20/100)).npvHigh = -(2500/27) := by
  simp only [discountRateSensitivity]
  rw [metrics_npv_eq]
  have hr2 : List.range 2 = [0, 1] := rfl
  norm_num [cexProject2, npvTerm, cfTerm, calculateCapexTotal, calculateYearlyOpexCashIn,
    calculateYearlyOpexCashOut, calculateTotal, hr2]

theorem cex2_rate_npvLow :
    (discountRateSensitivity cexProject2 (20/100)).npvLow = -(625/7) := by
  simp only [discountRateSensitivity]
  rw [metrics_npv_eq]
  have hr2 : List.range 2 = [0, 1] := rfl
  norm_num [cexProject2, npvTerm, cfTerm, calculateCapexTotal, calculateYearlyOpexCashIn,
    calculateYearlyOpexCashOut, calculateTotal, hr2]

/-- C3 counterexample: at `cexProject` with the positive variation 20 the
Revenue record has `npvHigh = -120 < -80 = npvLow`; and at `cexProject2`
(nonnegative volumes and prices but cost-heavy) the Discount Rate record has
`npvHigh = -2500/27 < -625/7 = npvLow`; so the claim as stated (for every
`ProjectData` and positive variation) is false. -/
theorem sensitivity_npvLow_le_npvHigh_cex :
    (0:ℚ) < 20 ∧
    ¬ (∀ r ∈ performSensitivityAnalysis cexProject 20,
        r.npvLow ≤ r.npvHigh ∧ 0 ≤ r.range) ∧
    ¬ (∀ r ∈ performSensitivityAnalysis cexProject2 20,
        r.npvLow ≤ r.npvHigh ∧ 0 ≤ r.range) := by
  refine ⟨by norm_num, fun hall => ?_, fun hall => ?_⟩
  · have hmem : revenueSensitivity cexProject (20/100)
        ∈ performSensitivityAnalysis cexProject 20 := by
      rw [performSensitivityAnalysis, List.mem_mergeSort]
      simp [sensitivityResultsUnsorted]
    have h := (hall _ hmem).1
    rw [cex_revenue_npvHigh, cex_revenue_npvLow] at h
    norm_num at h
  · have hmem : discountRateSensitivity cexProject2 (20/100)
        ∈ performSensitivityAnalysis cexProject2 20 := by
      rw [performSensitivityAnalysis, List.mem_mergeSort]
      simp [sensitivityResultsUnsorted]
    have h := (hall _ hmem).1
    rw [cex2_rate_npvHigh, cex2_rate_npvLow] at h
    norm_num at h

end SimulasiKelayakan
